import Mathlib

/-
Shallow embedding of the hub-server WebSocket gateway core
(src/ws/state.ts, src/ws/gateway.ts, src/ws/handlers/*, src/ws/redis.ts).

Sockets are identified by natural numbers.  The mutable per-socket context
(`socket.data`) is modelled as a total map from socket ids to `WSContext`;
the room registry (`WSState.rooms`) is an association list from meeting id
to an association list from participant id to socket id, mirroring the
insertion-order semantics of JavaScript `Map` (set on an existing key keeps
its position, set on a fresh key appends, delete removes).

Side effects (socket sends, Redis publishes, logs, external collaborator
calls) are collected in an explicit effect list; handlers return the new
world together with their effects, in program order.  A relay publish that
throws is modelled by the boolean `relayFails`: when true, the handler's
`catch` block runs instead of the code after the `await publishToMeeting`.
-/

namespace HubServer

/-- Media on/off flag ('on' | 'off' in the source). -/
inductive OnOff where
  | on
  | off
deriving DecidableEq, Repr

/-- mediaState: { mic, cam, screen } (src/ws/types.ts `MediaState`). -/
structure MediaState where
  mic : OnOff
  cam : OnOff
  screen : OnOff
deriving DecidableEq, Repr

/-- Partial media state, as sent by media.update and in media.changed patches. -/
structure MediaPatch where
  mic : Option OnOff
  cam : Option OnOff
  screen : Option OnOff
deriving DecidableEq, Repr

/-- Participant role ('host' | 'cohost' | 'guest'). -/
inductive Role where
  | host
  | cohost
  | guest
deriving DecidableEq, Repr

/-- Per-connection context, src/ws/types.ts `WSContext` (socket.data). -/
structure WSContext where
  authenticated : Bool
  userId : Option String
  participantId : Option String
  meetingId : Option String
  role : Option Role
  displayName : Option String
  mediaState : Option MediaState
  handRaised : Option Bool
deriving DecidableEq, Repr

/-- The context a freshly opened socket gets in gateway.ts `open`. -/
def freshContext : WSContext :=
  { authenticated := false
    userId := none
    participantId := none
    meetingId := none
    role := none
    displayName := none
    mediaState := none
    handRaised := none }

/-- JavaScript truthiness of a `string | undefined` value:
`undefined` and the empty string are falsy. -/
def jsTruthy : Option String → Bool
  | none => false
  | some s => !(s == "")

/-- JavaScript `x || d` on a `string | undefined` value `x`. -/
def jsOr (x : Option String) (d : String) : String :=
  match x with
  | none => d
  | some s => if s == "" then d else s

/-- JavaScript `x || undefined` on a `string | undefined` value `x`. -/
def jsOrUndef (x : Option String) : Option String :=
  match x with
  | none => none
  | some s => if s == "" then none else some s

/-- Association-list lookup mirroring `Map.get` (first matching key). -/
def alookup {α : Type} : List (String × α) → String → Option α
  | [], _ => none
  | q :: rest, k => if q.1 == k then some q.2 else alookup rest k

/-- `Map.set k v`: replace in place if the key is present, append otherwise. -/
def mapSet {α : Type} (l : List (String × α)) (k : String) (v : α) :
    List (String × α) :=
  if l.any (fun q => q.1 == k) then
    l.map (fun q => if q.1 == k then (k, v) else q)
  else
    l ++ [(k, v)]

/-- `Map.delete k`: remove the entry with the given key. -/
def mapDelete {α : Type} (l : List (String × α)) (k : String) :
    List (String × α) :=
  l.filter (fun q => q.1 != k)

/-- A room's socket map: participantId → socket id (RoomState.sockets). -/
abbrev SockMap := List (String × Nat)

/-- The registry: meetingId → socket map (WSState.rooms). -/
abbrev RoomsMap := List (String × SockMap)

/-- WSState.addToRoom: lazily create the room, then set participantId → socket. -/
def roomsAdd (rooms : RoomsMap) (meetingId participantId : String)
    (sockId : Nat) : RoomsMap :=
  let rooms1 :=
    if (alookup rooms meetingId).isSome then rooms else mapSet rooms meetingId []
  rooms1.map (fun q =>
    if q.1 == meetingId then (meetingId, mapSet q.2 participantId sockId) else q)

/-- WSState.removeFromRoom: delete the participant; drop the meeting when its
socket map becomes empty. -/
def roomsRemove (rooms : RoomsMap) (meetingId participantId : String) :
    RoomsMap :=
  match alookup rooms meetingId with
  | none => rooms
  | some socks =>
    let socks1 := mapDelete socks participantId
    let rooms1 := rooms.map (fun q =>
      if q.1 == meetingId then (meetingId, socks1) else q)
    if socks1.length == 0 then mapDelete rooms1 meetingId else rooms1

/-- WSState.getRoomSockets: the room's socket handles, in insertion order. -/
def getRoomSockets (rooms : RoomsMap) (meetingId : String) : List Nat :=
  match alookup rooms meetingId with
  | none => []
  | some socks => socks.map (fun q => q.2)

/-- WSState.getSocket: point lookup for signaling / moderation targets. -/
def getSocket (rooms : RoomsMap) (meetingId participantId : String) :
    Option Nat :=
  match alookup rooms meetingId with
  | none => none
  | some socks => alookup socks participantId

/-- The whole mutable world: every socket's context plus the room registry. -/
structure World where
  contexts : Nat → WSContext
  rooms : RoomsMap

/-- Overwrite one socket's context (mutation of `socket.data`). -/
def World.setCtx (w : World) (sockId : Nat) (c : WSContext) : World :=
  { w with contexts := fun j => if j = sockId then c else w.contexts j }

/-- Peer record built in room.join's peers list (fields may be undefined). -/
structure PeerInfo where
  participantId : Option String
  displayName : Option String
  role : Option Role
  mediaState : Option MediaState
  handRaised : Option Bool
deriving DecidableEq, Repr

/-- Outbound wire messages (src/ws responses and broadcast payloads). -/
inductive OutMsg where
  | errorMsg (requestId : Option String) (error : String)
  | authError (requestId : Option String) (error : String)
  | authOk (requestId : Option String) (userId : String)
  | roomJoined (requestId : Option String) (meetingId : String)
      (selfPid : String) (selfName : String) (selfRole : Role)
      (selfMedia : MediaState) (peers : List PeerInfo)
  | roomLeft (requestId : Option String)
  | roomKicked (byPid : String) (reason : String)
  | participantJoined (participantId : String) (displayName : String)
      (role : Role) (mediaState : MediaState) (handRaised : Bool)
  | participantLeft (participantId : String)
  | rtcSignal (fromPid : String) (ty : String) (sdp : Option String)
      (candidate : Option String)
  | mediaChanged (participantId : String) (patch : MediaPatch)
  | chatMessage (id : String) (participantId : String)
      (sender : Option String) (text : String) (ts : String)
  | reactionAdded (participantId : String) (ty : String) (ts : String)
  | handChanged (participantId : String) (raised : Bool)
  | moderationMuted (byPid : String)
  | lobbyResult (admitted : Bool)
deriving DecidableEq, Repr

/-- Observable side effects, in program order. -/
inductive Effect where
  | send (sockId : Nat) (msg : OutMsg)
  | publish (meetingId : String) (msg : OutMsg)
  | log (text : String)
  | recordLeft (participantId : String)
  | closeConnection (sockId : Nat)
deriving DecidableEq, Repr

/-- Whether an effect is a socket send (what a client can observe). -/
def Effect.isSend : Effect → Bool
  | .send _ _ => true
  | _ => false

/-- WSState.broadcastToRoom: serialize the message once and send it to every
socket of the room except the excluded participant. The JS guard is
`excludeParticipantId && socket.data.participantId === excludeParticipantId`. -/
def broadcastToRoom (w : World) (meetingId : String) (msg : OutMsg)
    (exclude : Option String) : List Effect :=
  (getRoomSockets w.rooms meetingId).filterMap (fun sid =>
    if jsTruthy exclude && ((w.contexts sid).participantId == exclude) then
      none
    else
      some (Effect.send sid msg))

/-- `{...mediaState, ...message.payload}`: fields present in the patch win. -/
def applyPatch (ms : MediaState) (p : MediaPatch) : MediaState :=
  { mic := p.mic.getD ms.mic
    cam := p.cam.getD ms.cam
    screen := p.screen.getD ms.screen }

/-- The participant record resolved by participantsService.findById
(fields the join handler reads; `meetingId` stands for participant.meeting.id). -/
structure Participant where
  id : String
  userId : Option String
  meetingId : String
  role : Role
  userDisplayName : Option String
deriving DecidableEq, Repr

/-- Device flags sent with room.join ({ mic, cam }). -/
structure DeviceState where
  mic : Bool
  cam : Bool
deriving DecidableEq, Repr

/-- gateway.ts handleAuthenticate: verify the access token; on success set
authenticated/userId and reply auth.ok, otherwise reply auth.error. -/
def handleAuthenticate (verifyAccess : String → Option String) (w : World)
    (sockId : Nat) (rq : Option String) (accessToken : String) :
    World × List Effect :=
  match verifyAccess accessToken with
  | none => (w, [Effect.send sockId (OutMsg.authError rq "Invalid access token")])
  | some sub =>
    let w1 := w.setCtx sockId
      { w.contexts sockId with authenticated := true, userId := some sub }
    (w1, [Effect.send sockId (OutMsg.authOk rq sub)])

/-- handlers/room.ts handleRoomJoin.  `relayFails` models
`publishToMeeting` throwing: the handler's catch block then sends a
"Failed to join room" error, after the local registration and broadcasts
have already happened. -/
def handleRoomJoin (verifyRoom : String → Option String)
    (findById : String → Option Participant) (relayFails : Bool) (w : World)
    (sockId : Nat) (rq : Option String) (roomToken : String)
    (device : DeviceState) : World × List Effect :=
  match verifyRoom roomToken with
  | none => (w, [Effect.send sockId (OutMsg.errorMsg rq "Invalid room token")])
  | some sub =>
    match findById sub with
    | none =>
      (w, [Effect.send sockId (OutMsg.errorMsg rq "Participant not found")])
    | some participant =>
      let dn := jsOr participant.userDisplayName "Guest"
      let media : MediaState :=
        { mic := if device.mic then OnOff.on else OnOff.off
          cam := if device.cam then OnOff.on else OnOff.off
          screen := OnOff.off }
      let ctx1 : WSContext :=
        { authenticated := true
          userId := jsOrUndef participant.userId
          participantId := some participant.id
          meetingId := some participant.meetingId
          role := some participant.role
          displayName := some dn
          mediaState := some media
          handRaised := some false }
      let w1 := w.setCtx sockId ctx1
      let w2 :=
        { w1 with
          rooms := roomsAdd w1.rooms participant.meetingId participant.id sockId }
      let peers :=
        ((getRoomSockets w2.rooms participant.meetingId).filter
          (fun s => !((w2.contexts s).participantId == some participant.id))).map
          (fun s =>
            let c := w2.contexts s
            PeerInfo.mk c.participantId c.displayName c.role c.mediaState
              c.handRaised)
      let joined := OutMsg.roomJoined rq participant.meetingId participant.id dn
        participant.role media peers
      let pj := OutMsg.participantJoined participant.id dn participant.role
        media false
      let pre := Effect.send sockId joined ::
        broadcastToRoom w2 participant.meetingId pj (some participant.id)
      if relayFails then
        (w2, pre ++ [Effect.log "Error handling room.join:",
          Effect.send sockId (OutMsg.errorMsg rq "Failed to join room")])
      else
        (w2, pre ++ [Effect.publish participant.meetingId pj])

/-- handlers/room.ts handleRoomLeave: record leave time, remove from the
registry, broadcast participant.left, publish, confirm with room.left,
then clear participantId/meetingId.  When the publish throws, the catch
block skips the confirmation and the clearing. -/
def handleRoomLeave (relayFails : Bool) (w : World) (sockId : Nat)
    (rq : Option String) : World × List Effect :=
  let ctx := w.contexts sockId
  if jsTruthy ctx.participantId && jsTruthy ctx.meetingId then
    let p := ctx.participantId.getD ""
    let m := ctx.meetingId.getD ""
    let w1 := { w with rooms := roomsRemove w.rooms m p }
    let pl := OutMsg.participantLeft p
    let bc := broadcastToRoom w1 m pl none
    if relayFails then
      (w1, Effect.recordLeft p :: bc ++ [Effect.log "Error handling room.leave:"])
    else
      let w2 := w1.setCtx sockId
        { w1.contexts sockId with participantId := none, meetingId := none }
      (w2, Effect.recordLeft p :: bc ++
        [Effect.publish m pl, Effect.send sockId (OutMsg.roomLeft rq)])
  else
    (w, [])

/-- handlers/rtc.ts handleRTCSignal: point-to-point forward with `from`
rewritten; silently dropped when the target is not local; no publish. -/
def handleRTCSignal (w : World) (sockId : Nat) (rq : Option String)
    (toPid : String) (ty : String) (sdp candidate : Option String) :
    World × List Effect :=
  let ctx := w.contexts sockId
  if jsTruthy ctx.meetingId && jsTruthy ctx.participantId then
    let m := ctx.meetingId.getD ""
    let p := ctx.participantId.getD ""
    match getSocket w.rooms m toPid with
    | some t => (w, [Effect.send t (OutMsg.rtcSignal p ty sdp candidate)])
    | none => (w, [])
  else
    (w, [Effect.send sockId (OutMsg.errorMsg rq "Not in a room")])

/-- handlers/media.ts handleMediaUpdate: merge the patch into mediaState
(when present) and broadcast media.changed excluding the sender. -/
def handleMediaUpdate (relayFails : Bool) (w : World) (sockId : Nat)
    (rq : Option String) (patch : MediaPatch) : World × List Effect :=
  let ctx := w.contexts sockId
  if jsTruthy ctx.meetingId && jsTruthy ctx.participantId then
    let m := ctx.meetingId.getD ""
    let p := ctx.participantId.getD ""
    let w1 :=
      match ctx.mediaState with
      | some ms =>
        w.setCtx sockId { ctx with mediaState := some (applyPatch ms patch) }
      | none => w
    let mc := OutMsg.mediaChanged p patch
    let bc := broadcastToRoom w1 m mc (some p)
    if relayFails then
      (w1, bc ++ [Effect.log "Error handling media.update:"])
    else
      (w1, bc ++ [Effect.publish m mc])
  else
    (w, [Effect.send sockId (OutMsg.errorMsg rq "Not in a room")])

/-- handlers/chat.ts handleChatSend: broadcast chat.message to the whole
room (no exclusion) and publish; no direct response to the sender. -/
def handleChatSend (relayFails : Bool) (w : World) (sockId : Nat)
    (rq : Option String) (text : String) (newId ts : String) :
    World × List Effect :=
  let ctx := w.contexts sockId
  if jsTruthy ctx.meetingId && jsTruthy ctx.participantId then
    let m := ctx.meetingId.getD ""
    let p := ctx.participantId.getD ""
    let cm := OutMsg.chatMessage newId p ctx.displayName text ts
    let bc := broadcastToRoom w m cm none
    if relayFails then
      (w, bc ++ [Effect.log "Error handling chat.send:"])
    else
      (w, bc ++ [Effect.publish m cm])
  else
    (w, [Effect.send sockId (OutMsg.errorMsg rq "Not in a room")])

/-- handlers/presence.ts handleReactionSend: silent return when not in a
room; otherwise broadcast reaction.added and publish. -/
def handleReactionSend (relayFails : Bool) (w : World) (sockId : Nat)
    (rq : Option String) (ty : String) (ts : String) : World × List Effect :=
  let ctx := w.contexts sockId
  if jsTruthy ctx.meetingId && jsTruthy ctx.participantId then
    let m := ctx.meetingId.getD ""
    let p := ctx.participantId.getD ""
    let rm := OutMsg.reactionAdded p ty ts
    let bc := broadcastToRoom w m rm none
    if relayFails then
      (w, bc ++ [Effect.log "Error handling reaction.send:"])
    else
      (w, bc ++ [Effect.publish m rm])
  else
    (w, [])

/-- handlers/presence.ts handleHandRaise: silent return when not in a room;
otherwise set handRaised and broadcast hand.changed. -/
def handleHandRaise (relayFails : Bool) (w : World) (sockId : Nat)
    (rq : Option String) : World × List Effect :=
  let ctx := w.contexts sockId
  if jsTruthy ctx.meetingId && jsTruthy ctx.participantId then
    let m := ctx.meetingId.getD ""
    let p := ctx.participantId.getD ""
    let w1 := w.setCtx sockId { ctx with handRaised := some true }
    let hm := OutMsg.handChanged p true
    let bc := broadcastToRoom w1 m hm none
    if relayFails then
      (w1, bc ++ [Effect.log "Error handling hand.raise:"])
    else
      (w1, bc ++ [Effect.publish m hm])
  else
    (w, [])

/-- handlers/presence.ts handleHandLower: silent return when not in a room;
otherwise clear handRaised and broadcast hand.changed. -/
def handleHandLower (relayFails : Bool) (w : World) (sockId : Nat)
    (rq : Option String) : World × List Effect :=
  let ctx := w.contexts sockId
  if jsTruthy ctx.meetingId && jsTruthy ctx.participantId then
    let m := ctx.meetingId.getD ""
    let p := ctx.participantId.getD ""
    let w1 := w.setCtx sockId { ctx with handRaised := some false }
    let hm := OutMsg.handChanged p false
    let bc := broadcastToRoom w1 m hm none
    if relayFails then
      (w1, bc ++ [Effect.log "Error handling hand.lower:"])
    else
      (w1, bc ++ [Effect.publish m hm])
  else
    (w, [])

/-- handlers/moderation.ts handleModerationMute: silent return when not in a
room; role error unless host/cohost; when the target is locally present,
send moderation.muted to it, force its mic off, broadcast media.changed to
the whole room and publish; otherwise do nothing. -/
def handleModerationMute (relayFails : Bool) (w : World) (sockId : Nat)
    (rq : Option String) (targetId : String) : World × List Effect :=
  let ctx := w.contexts sockId
  if jsTruthy ctx.meetingId && jsTruthy ctx.participantId then
    if !(ctx.role == some Role.host) && !(ctx.role == some Role.cohost) then
      (w, [Effect.send sockId (OutMsg.errorMsg rq "Insufficient permissions")])
    else
      let m := ctx.meetingId.getD ""
      let p := ctx.participantId.getD ""
      match getSocket w.rooms m targetId with
      | none => (w, [])
      | some t =>
        let e1 := Effect.send t (OutMsg.moderationMuted p)
        let w1 :=
          match (w.contexts t).mediaState with
          | some ms =>
            w.setCtx t
              { w.contexts t with mediaState := some { ms with mic := OnOff.off } }
          | none => w
        let mc := OutMsg.mediaChanged targetId
          (MediaPatch.mk (some OnOff.off) none none)
        let bc := broadcastToRoom w1 m mc none
        if relayFails then
          (w1, e1 :: bc ++ [Effect.log "Error handling moderation.mute:"])
        else
          (w1, e1 :: bc ++ [Effect.publish m mc])
  else
    (w, [])

/-- handlers/moderation.ts handleModerationRemove: silent return when not in
a room; role error unless host/cohost; when the target is locally present,
send room.kicked to it, remove it from the registry, broadcast
participant.left and publish; otherwise do nothing.  The target's own
session context is not touched. -/
def handleModerationRemove (relayFails : Bool) (w : World) (sockId : Nat)
    (rq : Option String) (targetId : String) : World × List Effect :=
  let ctx := w.contexts sockId
  if jsTruthy ctx.meetingId && jsTruthy ctx.participantId then
    if !(ctx.role == some Role.host) && !(ctx.role == some Role.cohost) then
      (w, [Effect.send sockId (OutMsg.errorMsg rq "Insufficient permissions")])
    else
      let m := ctx.meetingId.getD ""
      let p := ctx.participantId.getD ""
      match getSocket w.rooms m targetId with
      | none => (w, [])
      | some t =>
        let e1 := Effect.send t (OutMsg.roomKicked p "Removed by moderator")
        let w1 := { w with rooms := roomsRemove w.rooms m targetId }
        let pl := OutMsg.participantLeft targetId
        let bc := broadcastToRoom w1 m pl none
        if relayFails then
          (w1, e1 :: bc ++ [Effect.log "Error handling moderation.remove:"])
        else
          (w1, e1 :: bc ++ [Effect.publish m pl])
  else
    (w, [])

/-- handlers/lobby.ts handleLobbyAdmit: host-only; send lobby.result
{admitted: true} to the target when it is registered in the room, nothing
otherwise. -/
def handleLobbyAdmit (w : World) (sockId : Nat) (rq : Option String)
    (targetId : String) : World × List Effect :=
  let ctx := w.contexts sockId
  if !(jsTruthy ctx.meetingId) || !(ctx.role == some Role.host) then
    (w, [Effect.send sockId
      (OutMsg.errorMsg rq "Only hosts can admit participants")])
  else
    let m := ctx.meetingId.getD ""
    match getSocket w.rooms m targetId with
    | some t => (w, [Effect.send t (OutMsg.lobbyResult true)])
    | none => (w, [])

/-- handlers/lobby.ts handleLobbyReject: host-only; send lobby.result
{admitted: false} to the target when it is registered in the room, nothing
otherwise. -/
def handleLobbyReject (w : World) (sockId : Nat) (rq : Option String)
    (targetId : String) : World × List Effect :=
  let ctx := w.contexts sockId
  if !(jsTruthy ctx.meetingId) || !(ctx.role == some Role.host) then
    (w, [Effect.send sockId
      (OutMsg.errorMsg rq "Only hosts can reject participants")])
  else
    let m := ctx.meetingId.getD ""
    match getSocket w.rooms m targetId with
    | some t => (w, [Effect.send t (OutMsg.lobbyResult false)])
    | none => (w, [])

/-- gateway.ts `close`: if meetingId and participantId are set, remove the
participant from the registry.  Nothing else happens (in particular no
participant.left broadcast). -/
def gatewayClose (w : World) (sockId : Nat) : World × List Effect :=
  let ctx := w.contexts sockId
  if jsTruthy ctx.meetingId && jsTruthy ctx.participantId then
    ({ w with
        rooms := roomsRemove w.rooms (ctx.meetingId.getD "")
          (ctx.participantId.getD "") }, [])
  else
    (w, [])

/-- Parsed inbound envelopes (gateway.ts message switch cases). -/
inductive InMsg where
  | authAuthenticate (requestId : Option String) (accessToken : String)
  | roomJoin (requestId : Option String) (roomToken : String)
      (device : DeviceState)
  | roomLeave (requestId : Option String)
  | rtcSignal (requestId : Option String) (toPid : String) (ty : String)
      (sdp : Option String) (candidate : Option String)
  | mediaUpdate (requestId : Option String) (patch : MediaPatch)
  | chatSend (requestId : Option String) (text : String)
  | reactionSend (requestId : Option String) (ty : String)
  | handRaise (requestId : Option String)
  | handLower (requestId : Option String)
  | moderationMute (requestId : Option String) (targetId : String)
  | moderationRemove (requestId : Option String) (targetId : String)
  | lobbyAdmit (requestId : Option String) (targetId : String)
  | lobbyReject (requestId : Option String) (targetId : String)
  | unknownKind (requestId : Option String) (ty : String)
deriving DecidableEq, Repr

/-- The envelope's correlation id (msg.requestId). -/
def InMsg.reqId : InMsg → Option String
  | .authAuthenticate rq _ => rq
  | .roomJoin rq _ _ => rq
  | .roomLeave rq => rq
  | .rtcSignal rq _ _ _ _ => rq
  | .mediaUpdate rq _ => rq
  | .chatSend rq _ => rq
  | .reactionSend rq _ => rq
  | .handRaise rq => rq
  | .handLower rq => rq
  | .moderationMute rq _ => rq
  | .moderationRemove rq _ => rq
  | .lobbyAdmit rq _ => rq
  | .lobbyReject rq _ => rq
  | .unknownKind rq _ => rq

/-- Which message-kind handler the router invoked for a message
(`rejected` = the authentication gate answered before any handler ran). -/
inductive Dispatch where
  | auth
  | roomJoin
  | roomLeave
  | rtcSignal
  | mediaUpdate
  | chatSend
  | reactionSend
  | handRaise
  | handLower
  | moderationMute
  | moderationRemove
  | lobbyAdmit
  | lobbyReject
  | unknownKind
  | rejected
deriving DecidableEq, Repr

/-- External collaborators and nondeterministic inputs of one message step:
token verifiers, the participant resolver, whether the relay publish
throws, and the fresh ulid / timestamp values. -/
structure Env where
  verifyAccess : String → Option String
  verifyRoom : String → Option String
  findById : String → Option Participant
  relayFails : Bool
  newUlid : String
  now : String

/-- The switch statement of gateway.ts `message`, reached only for
authenticated sessions.  An auth.authenticate envelope never reaches the
switch; if it did, the default case would answer. -/
def routeAuthed (env : Env) (w : World) (sockId : Nat) :
    InMsg → World × List Effect × Dispatch
  | .roomJoin rq tok dev =>
    let r := handleRoomJoin env.verifyRoom env.findById env.relayFails w sockId
      rq tok dev
    (r.1, r.2, Dispatch.roomJoin)
  | .roomLeave rq =>
    let r := handleRoomLeave env.relayFails w sockId rq
    (r.1, r.2, Dispatch.roomLeave)
  | .rtcSignal rq toPid ty sdp cand =>
    let r := handleRTCSignal w sockId rq toPid ty sdp cand
    (r.1, r.2, Dispatch.rtcSignal)
  | .mediaUpdate rq patch =>
    let r := handleMediaUpdate env.relayFails w sockId rq patch
    (r.1, r.2, Dispatch.mediaUpdate)
  | .chatSend rq text =>
    let r := handleChatSend env.relayFails w sockId rq text env.newUlid env.now
    (r.1, r.2, Dispatch.chatSend)
  | .reactionSend rq ty =>
    let r := handleReactionSend env.relayFails w sockId rq ty env.now
    (r.1, r.2, Dispatch.reactionSend)
  | .handRaise rq =>
    let r := handleHandRaise env.relayFails w sockId rq
    (r.1, r.2, Dispatch.handRaise)
  | .handLower rq =>
    let r := handleHandLower env.relayFails w sockId rq
    (r.1, r.2, Dispatch.handLower)
  | .moderationMute rq target =>
    let r := handleModerationMute env.relayFails w sockId rq target
    (r.1, r.2, Dispatch.moderationMute)
  | .moderationRemove rq target =>
    let r := handleModerationRemove env.relayFails w sockId rq target
    (r.1, r.2, Dispatch.moderationRemove)
  | .lobbyAdmit rq target =>
    let r := handleLobbyAdmit w sockId rq target
    (r.1, r.2, Dispatch.lobbyAdmit)
  | .lobbyReject rq target =>
    let r := handleLobbyReject w sockId rq target
    (r.1, r.2, Dispatch.lobbyReject)
  | .authAuthenticate rq _ =>
    (w, [Effect.send sockId (OutMsg.errorMsg rq
      ("Unknown message type: " ++ "auth.authenticate"))], Dispatch.unknownKind)
  | .unknownKind rq ty =>
    (w, [Effect.send sockId (OutMsg.errorMsg rq
      ("Unknown message type: " ++ ty))], Dispatch.unknownKind)

/-- gateway.ts `message`: auth.authenticate is dispatched unconditionally;
every other kind first passes the authentication gate, which answers with
a "Not authenticated" error carrying the envelope's requestId. -/
def gatewayMessage (env : Env) (w : World) (sockId : Nat) (msg : InMsg) :
    World × List Effect × Dispatch :=
  match msg with
  | .authAuthenticate rq tok =>
    let r := handleAuthenticate env.verifyAccess w sockId rq tok
    (r.1, r.2, Dispatch.auth)
  | m =>
    if (w.contexts sockId).authenticated then
      routeAuthed env w sockId m
    else
      (w, [Effect.send sockId (OutMsg.errorMsg m.reqId "Not authenticated")],
        Dispatch.rejected)

/-! ### Association-list and broadcast helper lemmas -/

theorem alookup_nil {α : Type} (k : String) :
    alookup ([] : List (String × α)) k = none := rfl

theorem alookup_cons {α : Type} (a : String × α) (l : List (String × α))
    (k : String) :
    alookup (a :: l) k = if a.1 == k then some a.2 else alookup l k := rfl

theorem alookup_none_beq {α : Type} {l : List (String × α)} {k : String}
    (h : alookup l k = none) : ∀ q ∈ l, (q.1 == k) = false := by
  induction l with
  | nil => intro q hq; cases hq
  | cons a rest ih =>
    rw [alookup_cons] at h
    by_cases hb : (a.1 == k) = true
    · rw [if_pos hb] at h; cases h
    · rw [if_neg hb] at h
      intro q hq
      rcases List.mem_cons.mp hq with hq | hq
      · subst hq; exact Bool.eq_false_iff.mpr hb
      · exact ih h q hq

theorem alookup_none_of_beq {α : Type} {l : List (String × α)} {k : String}
    (h : ∀ q ∈ l, (q.1 == k) = false) : alookup l k = none := by
  induction l with
  | nil => rfl
  | cons a rest ih =>
    rw [alookup_cons, h a (List.mem_cons_self a rest)]
    exact ih (fun q hq => h q (List.mem_cons_of_mem a hq))

theorem alookup_append_none {α : Type} {l : List (String × α)} {k : String}
    (h : alookup l k = none) (l2 : List (String × α)) :
    alookup (l ++ l2) k = alookup l2 k := by
  induction l with
  | nil => rfl
  | cons a rest ih =>
    rw [alookup_cons] at h
    by_cases hb : (a.1 == k) = true
    · rw [if_pos hb] at h; cases h
    · rw [if_neg hb] at h
      rw [List.cons_append, alookup_cons, if_neg hb]
      exact ih h

theorem mapSet_absent {α : Type} {l : List (String × α)} {k : String}
    (h : alookup l k = none) (v : α) : mapSet l k v = l ++ [(k, v)] := by
  unfold mapSet
  have : l.any (fun q => q.1 == k) = false :=
    List.any_eq_false.mpr (fun q hq => by
      rw [alookup_none_beq h q hq]; exact Bool.false_ne_true)
  rw [this]
  rfl

theorem map_if_none {α : Type} {l : List (String × α)} {m : String}
    (h : alookup l m = none) (g : String × α → String × α) :
    l.map (fun q => if q.1 == m then g q else q) = l := by
  have := alookup_none_beq h
  induction l with
  | nil => rfl
  | cons a rest ih =>
    rw [List.map_cons, this a (List.mem_cons_self a rest)]
    rw [alookup_cons] at h
    by_cases hb : (a.1 == m) = true
    · rw [if_pos hb] at h; cases h
    · rw [if_neg hb] at h
      rw [if_neg (by simp), ih h (fun q hq => this q (List.mem_cons_of_mem a hq))]

theorem mapDelete_of_none {α : Type} {l : List (String × α)} {m : String}
    (h : alookup l m = none) : mapDelete l m = l := by
  unfold mapDelete
  apply List.filter_eq_self.mpr
  intro q hq
  rw [bne, alookup_none_beq h q hq]
  rfl

theorem alookup_map_replace {α : Type} (l : List (String × α)) (m : String)
    (g : α → α) :
    alookup (l.map (fun q => if q.1 == m then (m, g q.2) else q)) m
      = (alookup l m).map g := by
  induction l with
  | nil => rfl
  | cons a rest ih =>
    rw [List.map_cons, alookup_cons, alookup_cons]
    by_cases hb : (a.1 == m) = true
    · rw [if_pos hb, if_pos hb]
      have hm2 : (((m, g a.2) : String × α).1 == m) = true := by simp
      rw [if_pos hm2]
      rfl
    · rw [if_neg hb, if_neg hb, if_neg hb]
      exact ih

theorem alookup_none_of_not_mem {α : Type} {l : List (String × α)}
    {m : String} (h : m ∉ l.map (fun q => q.1)) : alookup l m = none := by
  apply alookup_none_of_beq
  intro q hq
  have : q.1 ≠ m := fun he => h (he ▸ List.mem_map_of_mem (fun q => q.1) hq)
  simp [this]

theorem map_replace_self {α : Type} {l : List (String × α)} {m : String}
    {v : α} (hnodup : (l.map (fun q => q.1)).Nodup)
    (hm : alookup l m = some v) :
    l.map (fun q => if q.1 == m then (m, v) else q) = l := by
  induction l with
  | nil => cases hm
  | cons a rest ih =>
    rw [List.map_cons, List.nodup_cons] at hnodup
    rw [alookup_cons] at hm
    by_cases hb : (a.1 == m) = true
    · rw [if_pos hb] at hm
      injection hm with hv
      have ha : a.1 = m := by simpa using hb
      have hrest : alookup rest m = none :=
        alookup_none_of_not_mem (ha ▸ hnodup.1)
      rw [List.map_cons, if_pos hb, map_if_none hrest, ← hv, ← ha]
    · rw [if_neg hb] at hm
      rw [List.map_cons, if_neg hb, ih hnodup.2 hm]

theorem filterMap_all_some {α β : Type} (f : α → β) (l : List α) :
    l.filterMap (fun a => some (f a)) = l.map f := by
  induction l with
  | nil => rfl
  | cons a rest ih => simp [List.filterMap_cons, ih]

/-- A broadcast with no exclusion reaches every socket of the room. -/
theorem broadcastToRoom_no_exclude (w : World) (m : String) (msg : OutMsg) :
    broadcastToRoom w m msg none
      = (getRoomSockets w.rooms m).map (fun s => Effect.send s msg) := by
  unfold broadcastToRoom
  have : ∀ sid : Nat,
      (if jsTruthy none && ((w.contexts sid).participantId == none) then none
       else some (Effect.send sid msg)) = some (Effect.send sid msg) := by
    intro sid; rfl
  simp only [this]
  exact filterMap_all_some _ _

/-- Every effect emitted by a broadcast is a socket send. -/
theorem broadcastToRoom_all_sends (w : World) (m : String) (msg : OutMsg)
    (e : Option String) :
    (broadcastToRoom w m msg e).filter Effect.isSend
      = broadcastToRoom w m msg e := by
  apply List.filter_eq_self.mpr
  intro x hx
  simp only [broadcastToRoom, List.mem_filterMap] at hx
  obtain ⟨sid, _, hf⟩ := hx
  by_cases hc : (jsTruthy e && ((w.contexts sid).participantId == e)) = true
  · rw [if_pos hc] at hf; cases hf
  · rw [if_neg hc] at hf
    cases hf
    rfl

/-- A broadcast excluding a nonempty participant id sends to exactly the
room entries whose key differs from it, provided every registered socket's
context carries its registry key. -/
theorem filterMap_exclude (cs : Nat → WSContext) (e : String) (he : e ≠ "")
    (msg : OutMsg) :
    ∀ entries : SockMap,
      (∀ q ∈ entries, (cs q.2).participantId = some q.1) →
      (entries.map (fun q => q.2)).filterMap (fun sid =>
          if jsTruthy (some e) && ((cs sid).participantId == some e) then none
          else some (Effect.send sid msg))
        = (entries.filter (fun q => q.1 != e)).map
            (fun q => Effect.send q.2 msg) := by
  have hje : jsTruthy (some e) = true := by simp [jsTruthy, he]
  intro entries
  induction entries with
  | nil => intro _; rfl
  | cons q rest ih =>
    intro hsync
    have hq := hsync q (List.mem_cons_self q rest)
    have hrest : ∀ r ∈ rest, (cs r.2).participantId = some r.1 :=
      fun r hr => hsync r (List.mem_cons_of_mem q hr)
    have ihr := ih hrest
    rw [hje] at ihr
    simp only [Bool.true_and] at ihr
    rw [List.map_cons, List.filterMap_cons, List.filter_cons, hq, hje]
    by_cases hk : q.1 = e
    · have h1 : (some q.1 == some e) = true := by simp [hk]
      have h2 : (q.1 != e) = false := by simp [hk]
      rw [h1, h2]
      simp only [Bool.true_and, Bool.false_eq_true, if_true, if_false]
      exact ihr
    · have h1 : (some q.1 == some e) = false := by simp [hk]
      have h2 : (q.1 != e) = true := by simp [hk]
      rw [h1, h2]
      simp only [Bool.true_and, Bool.false_eq_true, if_false, if_true,
        List.map_cons]
      rw [ihr]

/-- Dropping the unique entry with a present key shortens an association
list by exactly one. -/
theorem filter_ne_key_length {α : Type} (e : String) :
    ∀ l : List (String × α), (l.map (fun q => q.1)).Nodup →
      e ∈ l.map (fun q => q.1) →
      (l.filter (fun q => q.1 != e)).length + 1 = l.length := by
  intro l
  induction l with
  | nil => intro _ h; cases h
  | cons a rest ih =>
    intro hnodup hmem
    rw [List.map_cons, List.nodup_cons] at hnodup
    rw [List.map_cons] at hmem
    by_cases ha : a.1 = e
    · have hnot : e ∉ rest.map (fun q => q.1) := ha ▸ hnodup.1
      have hall : rest.filter (fun q => q.1 != e) = rest := by
        apply List.filter_eq_self.mpr
        intro q hq
        have : q.1 ≠ e :=
          fun h => hnot (h ▸ List.mem_map_of_mem (fun q => q.1) hq)
        simp [this]
      have hae : (a.1 != e) = false := by simp [ha]
      rw [List.filter_cons, hae]
      simp only [Bool.false_eq_true, if_false]
      rw [hall, List.length_cons]
    · rcases List.mem_cons.mp hmem with h | h
      · exact absurd h.symm ha
      · have hae : (a.1 != e) = true := by simp [ha]
        have hih := ih hnodup.2 h
        simp only [List.filter_cons, hae, if_true, List.length_cons]
        omega

/-! ### Concrete fixtures -/

/-- Host session A: socket 0, participant pA in meeting m1. -/
def ctxHostA : WSContext :=
  { authenticated := true
    userId := some "uA"
    participantId := some "pA"
    meetingId := some "m1"
    role := some Role.host
    displayName := some "A"
    mediaState := some { mic := OnOff.on, cam := OnOff.on, screen := OnOff.off }
    handRaised := some false }

/-- Guest session B: socket 1, participant pB in meeting m1. -/
def ctxGuestB : WSContext :=
  { authenticated := true
    userId := some "uB"
    participantId := some "pB"
    meetingId := some "m1"
    role := some Role.guest
    displayName := some "B"
    mediaState := some { mic := OnOff.on, cam := OnOff.off, screen := OnOff.off }
    handRaised := some false }

/-- World with A and B registered in meeting m1. -/
def wAB : World :=
  { contexts := fun i => if i = 0 then ctxHostA else if i = 1 then ctxGuestB
      else freshContext
    rooms := [("m1", [("pA", 0), ("pB", 1)])] }

/-- World of fresh, unauthenticated sockets and no rooms. -/
def wUnauth : World :=
  { contexts := fun _ => freshContext, rooms := [] }

/-- World of authenticated sockets that have not joined any room. -/
def wAuthedIdle : World :=
  { contexts := fun _ => { freshContext with authenticated := true }
    rooms := [] }

/-- Participant record resolved for the test room token. -/
def partC : Participant :=
  { id := "pC"
    userId := some "uC"
    meetingId := "m1"
    role := Role.guest
    userDisplayName := some "C" }

/-- Test room-token verifier: "tok" resolves to subject "subC". -/
def verifyRoomW : String → Option String :=
  fun t => if t == "tok" then some "subC" else none

/-- Test participant resolver: subject "subC" resolves to partC. -/
def findByIdW : String → Option Participant :=
  fun s => if s == "subC" then some partC else none

/-- Test environment. -/
def envW : Env :=
  { verifyAccess := fun t => if t == "acc" then some "u1" else none
    verifyRoom := verifyRoomW
    findById := findByIdW
    relayFails := false
    newUlid := "ulid1"
    now := "ts1" }

/-! ### Claims -/

/-- Claim C1 (code-bug evidence): with sessions A (socket 0, participant pA)
and B (socket 1, participant pB) registered in meeting m1, the transport
close handler for A removes A from the Room Registry but emits no effect
at all — in particular no participant.left broadcast reaches B — whereas
the explicit leave handler at the same state does broadcast
participant.left to B.  The spec requires close to perform the same
cleanup as explicit leave, including the broadcast. -/
theorem close_skips_participant_left_broadcast :
    (gatewayClose wAB 0).1.rooms = [("m1", [("pB", 1)])] ∧
    (gatewayClose wAB 0).2 = [] ∧
    (handleRoomLeave false wAB 0 none).2 =
      [Effect.recordLeft "pA",
       Effect.send 1 (OutMsg.participantLeft "pA"),
       Effect.publish "m1" (OutMsg.participantLeft "pA"),
       Effect.send 0 (OutMsg.roomLeft none)] :=
  ⟨rfl, rfl, rfl⟩

/-- Claim C2: an inbound message of any kind other than auth.authenticate,
received on an unauthenticated session, is answered with an error carrying
the message's correlation id; no message-kind handler is invoked
(dispatch result `rejected`), the state is unchanged, and no close effect
is emitted. -/
theorem unauthenticated_message_rejected (env : Env) (w : World) (sockId : Nat)
    (msg : InMsg)
    (hauth : (w.contexts sockId).authenticated = false)
    (hkind : ∀ rq tok, msg ≠ InMsg.authAuthenticate rq tok) :
    gatewayMessage env w sockId msg =
      (w, [Effect.send sockId (OutMsg.errorMsg msg.reqId "Not authenticated")],
        Dispatch.rejected) := by
  cases msg <;>
    first
    | exact absurd rfl (hkind _ _)
    | simp [gatewayMessage, InMsg.reqId, hauth]

/-- Witness for C2: a chat.send on a fresh unauthenticated socket. -/
theorem unauthenticated_message_rejected_witness :
    gatewayMessage envW wUnauth 3 (InMsg.chatSend (some "c1") "hello") =
      (wUnauth,
        [Effect.send 3 (OutMsg.errorMsg (some "c1") "Not authenticated")],
        Dispatch.rejected) :=
  unauthenticated_message_rejected envW wUnauth 3
    (InMsg.chatSend (some "c1") "hello") rfl
    (fun _ _ h => InMsg.noConfusion h)

/-- Claim C3 (counterexample): an authenticated session that is in no room
sends hand.raise; the handler returns without emitting any effect — no
typed error response is sent to the sender, contradicting the claim that
every room-scoped message from a non-member yields an error response. -/
theorem hand_raise_out_of_room_sends_nothing :
    handleHandRaise false wAuthedIdle 0 (some "r1") = (wAuthedIdle, []) := rfl

/-- Claim C3 (amended): for a session with no meetingId and no
participantId, chat.send, media.update and rtc.signal answer with a
"Not in a room" error, lobby.admit and lobby.reject answer with a
host-only error, while hand.raise, hand.lower, reaction.send,
moderation.mute and moderation.remove silently do nothing; in every case
the state is unchanged and no close effect is emitted. -/
theorem out_of_room_handler_responses (w : World) (sockId : Nat)
    (rq : Option String) (rf : Bool)
    (hm : (w.contexts sockId).meetingId = none)
    (hp : (w.contexts sockId).participantId = none) :
    (∀ text nid ts, handleChatSend rf w sockId rq text nid ts =
      (w, [Effect.send sockId (OutMsg.errorMsg rq "Not in a room")])) ∧
    (∀ patch, handleMediaUpdate rf w sockId rq patch =
      (w, [Effect.send sockId (OutMsg.errorMsg rq "Not in a room")])) ∧
    (∀ toPid ty sdp cand, handleRTCSignal w sockId rq toPid ty sdp cand =
      (w, [Effect.send sockId (OutMsg.errorMsg rq "Not in a room")])) ∧
    handleHandRaise rf w sockId rq = (w, []) ∧
    handleHandLower rf w sockId rq = (w, []) ∧
    (∀ ty ts, handleReactionSend rf w sockId rq ty ts = (w, [])) ∧
    (∀ t, handleModerationMute rf w sockId rq t = (w, [])) ∧
    (∀ t, handleModerationRemove rf w sockId rq t = (w, [])) ∧
    (∀ t, handleLobbyAdmit w sockId rq t =
      (w, [Effect.send sockId
        (OutMsg.errorMsg rq "Only hosts can admit participants")])) ∧
    (∀ t, handleLobbyReject w sockId rq t =
      (w, [Effect.send sockId
        (OutMsg.errorMsg rq "Only hosts can reject participants")])) := by
  refine ⟨?_, ?_, ?_, ?_, ?_, ?_, ?_, ?_, ?_, ?_⟩ <;>
    intros <;>
    simp [handleChatSend, handleMediaUpdate, handleRTCSignal, handleHandRaise,
      handleHandLower, handleReactionSend, handleModerationMute,
      handleModerationRemove, handleLobbyAdmit, handleLobbyReject,
      jsTruthy, hm, hp]

/-- Witness for C3's amended statement at a concrete idle session. -/
theorem out_of_room_handler_responses_witness :
    handleChatSend false wAuthedIdle 0 (some "r2") "hi" "id" "ts" =
      (wAuthedIdle,
        [Effect.send 0 (OutMsg.errorMsg (some "r2") "Not in a room")]) ∧
    handleModerationMute false wAuthedIdle 0 (some "r2") "pB" =
      (wAuthedIdle, []) :=
  ⟨(out_of_room_handler_responses wAuthedIdle 0 (some "r2") false rfl rfl).1
      "hi" "id" "ts",
    (out_of_room_handler_responses wAuthedIdle 0 (some "r2") false rfl
      rfl).2.2.2.2.2.2.1 "pB"⟩

/-- Updating a socket context leaves the registry untouched. -/
theorem setCtx_rooms (w : World) (s : Nat) (c : WSContext) :
    (w.setCtx s c).rooms = w.rooms := rfl

/-- Claim C4 (counterexample): in meeting m1 with A and B present, socket 2
joins with a valid token while the relay publish throws; although local
registration and both broadcasts already succeeded, the joiner is sent a
"Failed to join room" error response — the publish failure does change
the response the sender observes. -/
theorem room_join_publish_failure_sends_error :
    Effect.send 2 (OutMsg.errorMsg (some "j1") "Failed to join room") ∈
      (handleRoomJoin verifyRoomW findByIdW true wAB 2 (some "j1") "tok"
        (DeviceState.mk true false)).2 := by decide

/-- Claim C4 (amended): the relay publish failure is caught inside every
handler; for chat.send, media.update, hand.raise, hand.lower,
reaction.send, moderation.mute and moderation.remove the catch only logs,
leaving the resulting world and the socket sends identical to a
successful run.  For room.join with a valid token and resolved
participant, the world (registration included) is unchanged but the
joiner additionally receives a "Failed to join room" error after the
normal sends.  For room.leave by an in-room session, registry removal and
the participant.left broadcast still happen, but the room.left
confirmation is not sent and the session's participantId and meetingId
are not cleared. -/
theorem publish_failure_effects :
    (∀ w sockId rq text nid ts,
      (handleChatSend true w sockId rq text nid ts).1
          = (handleChatSend false w sockId rq text nid ts).1 ∧
      (handleChatSend true w sockId rq text nid ts).2.filter Effect.isSend
          = (handleChatSend false w sockId rq text nid ts).2.filter
              Effect.isSend) ∧
    (∀ w sockId rq patch,
      (handleMediaUpdate true w sockId rq patch).1
          = (handleMediaUpdate false w sockId rq patch).1 ∧
      (handleMediaUpdate true w sockId rq patch).2.filter Effect.isSend
          = (handleMediaUpdate false w sockId rq patch).2.filter
              Effect.isSend) ∧
    (∀ w sockId rq,
      (handleHandRaise true w sockId rq).1
          = (handleHandRaise false w sockId rq).1 ∧
      (handleHandRaise true w sockId rq).2.filter Effect.isSend
          = (handleHandRaise false w sockId rq).2.filter Effect.isSend) ∧
    (∀ w sockId rq,
      (handleHandLower true w sockId rq).1
          = (handleHandLower false w sockId rq).1 ∧
      (handleHandLower true w sockId rq).2.filter Effect.isSend
          = (handleHandLower false w sockId rq).2.filter Effect.isSend) ∧
    (∀ w sockId rq ty ts,
      (handleReactionSend true w sockId rq ty ts).1
          = (handleReactionSend false w sockId rq ty ts).1 ∧
      (handleReactionSend true w sockId rq ty ts).2.filter Effect.isSend
          = (handleReactionSend false w sockId rq ty ts).2.filter
              Effect.isSend) ∧
    (∀ w sockId rq t,
      (handleModerationMute true w sockId rq t).1
          = (handleModerationMute false w sockId rq t).1 ∧
      (handleModerationMute true w sockId rq t).2.filter Effect.isSend
          = (handleModerationMute false w sockId rq t).2.filter
              Effect.isSend) ∧
    (∀ w sockId rq t,
      (handleModerationRemove true w sockId rq t).1
          = (handleModerationRemove false w sockId rq t).1 ∧
      (handleModerationRemove true w sockId rq t).2.filter Effect.isSend
          = (handleModerationRemove false w sockId rq t).2.filter
              Effect.isSend) ∧
    (∀ (vr : String → Option String) (fb : String → Option Participant)
        w sockId rq tok dev sub participant,
      vr tok = some sub → fb sub = some participant →
      (handleRoomJoin vr fb true w sockId rq tok dev).1
          = (handleRoomJoin vr fb false w sockId rq tok dev).1 ∧
      (handleRoomJoin vr fb true w sockId rq tok dev).2.filter Effect.isSend
          = (handleRoomJoin vr fb false w sockId rq tok dev).2.filter
              Effect.isSend
            ++ [Effect.send sockId
                  (OutMsg.errorMsg rq "Failed to join room")]) ∧
    (∀ w sockId rq m p,
      (w.contexts sockId).participantId = some p → p ≠ "" →
      (w.contexts sockId).meetingId = some m → m ≠ "" →
      (handleRoomLeave false w sockId rq).2.filter Effect.isSend
          = broadcastToRoom { w with rooms := roomsRemove w.rooms m p } m
              (OutMsg.participantLeft p) none
            ++ [Effect.send sockId (OutMsg.roomLeft rq)] ∧
      (handleRoomLeave true w sockId rq).2.filter Effect.isSend
          = broadcastToRoom { w with rooms := roomsRemove w.rooms m p } m
              (OutMsg.participantLeft p) none ∧
      ((handleRoomLeave true w sockId rq).1.contexts sockId).participantId
          = some p ∧
      ((handleRoomLeave true w sockId rq).1.contexts sockId).meetingId
          = some m ∧
      (handleRoomLeave true w sockId rq).1.rooms = roomsRemove w.rooms m p) := by
  refine ⟨?_, ?_, ?_, ?_, ?_, ?_, ?_, ?_, ?_⟩
  · intro w sockId rq text nid ts
    by_cases hg : (jsTruthy (w.contexts sockId).meetingId &&
        jsTruthy (w.contexts sockId).participantId) = true
    · constructor <;>
        simp [handleChatSend, hg, List.filter_append,
          broadcastToRoom_all_sends, Effect.isSend]
    · constructor <;> simp [handleChatSend, hg]
  · intro w sockId rq patch
    by_cases hg : (jsTruthy (w.contexts sockId).meetingId &&
        jsTruthy (w.contexts sockId).participantId) = true
    · constructor <;>
        simp [handleMediaUpdate, hg, List.filter_append,
          broadcastToRoom_all_sends, Effect.isSend]
    · constructor <;> simp [handleMediaUpdate, hg]
  · intro w sockId rq
    by_cases hg : (jsTruthy (w.contexts sockId).meetingId &&
        jsTruthy (w.contexts sockId).participantId) = true
    · constructor <;>
        simp [handleHandRaise, hg, List.filter_append,
          broadcastToRoom_all_sends, Effect.isSend]
    · constructor <;> simp [handleHandRaise, hg]
  · intro w sockId rq
    by_cases hg : (jsTruthy (w.contexts sockId).meetingId &&
        jsTruthy (w.contexts sockId).participantId) = true
    · constructor <;>
        simp [handleHandLower, hg, List.filter_append,
          broadcastToRoom_all_sends, Effect.isSend]
    · constructor <;> simp [handleHandLower, hg]
  · intro w sockId rq ty ts
    by_cases hg : (jsTruthy (w.contexts sockId).meetingId &&
        jsTruthy (w.contexts sockId).participantId) = true
    · constructor <;>
        simp [handleReactionSend, hg, List.filter_append,
          broadcastToRoom_all_sends, Effect.isSend]
    · constructor <;> simp [handleReactionSend, hg]
  · intro w sockId rq t
    by_cases hg : (jsTruthy (w.contexts sockId).meetingId &&
        jsTruthy (w.contexts sockId).participantId) = true
    · by_cases hr : (!((w.contexts sockId).role == some Role.host) &&
          !((w.contexts sockId).role == some Role.cohost)) = true
      · constructor <;> simp [handleModerationMute, hg, hr]
      · cases hts : getSocket w.rooms ((w.contexts sockId).meetingId.getD "") t
          with
        | none => constructor <;> simp [handleModerationMute, hg, hr, hts]
        | some tg =>
          constructor <;>
            simp [handleModerationMute, hg, hr, hts, List.filter_append,
              broadcastToRoom_all_sends, Effect.isSend]
    · constructor <;> simp [handleModerationMute, hg]
  · intro w sockId rq t
    by_cases hg : (jsTruthy (w.contexts sockId).meetingId &&
        jsTruthy (w.contexts sockId).participantId) = true
    · by_cases hr : (!((w.contexts sockId).role == some Role.host) &&
          !((w.contexts sockId).role == some Role.cohost)) = true
      · constructor <;> simp [handleModerationRemove, hg, hr]
      · cases hts : getSocket w.rooms ((w.contexts sockId).meetingId.getD "") t
          with
        | none => constructor <;> simp [handleModerationRemove, hg, hr, hts]
        | some tg =>
          constructor <;>
            simp [handleModerationRemove, hg, hr, hts, List.filter_append,
              broadcastToRoom_all_sends, Effect.isSend]
    · constructor <;> simp [handleModerationRemove, hg]
  · intro vr fb w sockId rq tok dev sub participant hv hf
    constructor
    · simp [handleRoomJoin, hv, hf]
    · simp [handleRoomJoin, hv, hf, List.filter_append,
        broadcastToRoom_all_sends, Effect.isSend]
  · intro w sockId rq m p hp hpne hm hmne
    have h1 : jsTruthy (some p) = true := by simp [jsTruthy, hpne]
    have h2 : jsTruthy (some m) = true := by simp [jsTruthy, hmne]
    refine ⟨?_, ?_, ?_, ?_, ?_⟩ <;>
      simp [handleRoomLeave, hp, hm, h1, h2, List.filter_append,
        broadcastToRoom_all_sends, Effect.isSend, World.setCtx]

/-- Witness for C4's amended statement at concrete worlds. -/
theorem publish_failure_effects_witness :
    (handleChatSend true wAB 0 (some "c") "hi" "id" "ts").2.filter
        Effect.isSend
      = (handleChatSend false wAB 0 (some "c") "hi" "id" "ts").2.filter
          Effect.isSend ∧
    (handleRoomJoin verifyRoomW findByIdW true wAB 2 (some "j") "tok"
        (DeviceState.mk true true)).2.filter Effect.isSend
      = (handleRoomJoin verifyRoomW findByIdW false wAB 2 (some "j") "tok"
          (DeviceState.mk true true)).2.filter Effect.isSend
        ++ [Effect.send 2 (OutMsg.errorMsg (some "j") "Failed to join room")] ∧
    (handleRoomLeave true wAB 0 (some "l")).2.filter Effect.isSend
      = broadcastToRoom { wAB with rooms := roomsRemove wAB.rooms "m1" "pA" }
          "m1" (OutMsg.participantLeft "pA") none :=
  ⟨(publish_failure_effects.1 wAB 0 (some "c") "hi" "id" "ts").2,
    (publish_failure_effects.2.2.2.2.2.2.2.1 verifyRoomW findByIdW wAB 2
      (some "j") "tok" (DeviceState.mk true true) "subC" partC rfl rfl).2,
    (publish_failure_effects.2.2.2.2.2.2.2.2 wAB 0 (some "l") "m1" "pA" rfl
      (by decide) rfl (by decide)).2.1⟩

/-- Claim C5: a moderation.mute from an in-room host or cohost: when the
target participant is locally registered and has a media state, the
target's mic is forced off, the target receives a direct
moderation.muted{by: sender}, and media.changed{mic: off} is broadcast to
every local socket of the meeting (then published); when the target is
not locally registered, the handler returns normally with no effect and
an unchanged world. -/
theorem moderation_mute_behavior (w : World) (sockId : Nat)
    (rq : Option String) (targetId m p : String) (r : Role)
    (hm : (w.contexts sockId).meetingId = some m) (hm2 : m ≠ "")
    (hp : (w.contexts sockId).participantId = some p) (hp2 : p ≠ "")
    (hr : (w.contexts sockId).role = some r)
    (hrole : r = Role.host ∨ r = Role.cohost) :
    (∀ t ms, getSocket w.rooms m targetId = some t →
      (w.contexts t).mediaState = some ms →
      handleModerationMute false w sockId rq targetId =
        (w.setCtx t
          { w.contexts t with mediaState := some { ms with mic := OnOff.off } },
         Effect.send t (OutMsg.moderationMuted p) ::
           (getRoomSockets w.rooms m).map (fun s => Effect.send s
             (OutMsg.mediaChanged targetId
               (MediaPatch.mk (some OnOff.off) none none)))
           ++ [Effect.publish m (OutMsg.mediaChanged targetId
                 (MediaPatch.mk (some OnOff.off) none none))])) ∧
    (getSocket w.rooms m targetId = none →
      handleModerationMute false w sockId rq targetId = (w, [])) := by
  have h1 : jsTruthy (some m) = true := by simp [jsTruthy, hm2]
  have h2 : jsTruthy (some p) = true := by simp [jsTruthy, hp2]
  have hrc : (!((w.contexts sockId).role == some Role.host) &&
      !((w.contexts sockId).role == some Role.cohost)) = false := by
    rcases hrole with h | h <;> simp [hr, h]
  constructor
  · intro t ms hts hms
    simp [handleModerationMute, hm, hp, h1, h2, hrc, hts, hms,
      broadcastToRoom_no_exclude, setCtx_rooms]
  · intro hts
    simp [handleModerationMute, hm, hp, h1, h2, hrc, hts]

/-- Witness for C5: host A mutes present B, and mutes an absent target. -/
theorem moderation_mute_behavior_witness :
    (handleModerationMute false wAB 0 (some "mu") "pB").2 =
      [Effect.send 1 (OutMsg.moderationMuted "pA"),
       Effect.send 0 (OutMsg.mediaChanged "pB"
         (MediaPatch.mk (some OnOff.off) none none)),
       Effect.send 1 (OutMsg.mediaChanged "pB"
         (MediaPatch.mk (some OnOff.off) none none)),
       Effect.publish "m1" (OutMsg.mediaChanged "pB"
         (MediaPatch.mk (some OnOff.off) none none))] ∧
    ((handleModerationMute false wAB 0 (some "mu") "pB").1.contexts 1).mediaState
      = some { mic := OnOff.off, cam := OnOff.off, screen := OnOff.off } ∧
    handleModerationMute false wAB 0 (some "mu") "zz" = (wAB, []) := by
  have hMuted := (moderation_mute_behavior wAB 0 (some "mu") "pB" "m1" "pA"
    Role.host rfl (by decide) rfl (by decide) rfl (Or.inl rfl)).1 1
    { mic := OnOff.on, cam := OnOff.off, screen := OnOff.off } rfl rfl
  have hAbsent := (moderation_mute_behavior wAB 0 (some "mu") "zz" "m1" "pA"
    Role.host rfl (by decide) rfl (by decide) rfl (Or.inl rfl)).2 rfl
  refine ⟨?_, ?_, hAbsent⟩
  · rw [hMuted]
    rfl
  · rw [hMuted]
    rfl

/-- Claim C6 (counterexample): after an explicit room.leave by host A the
session still carries its role and mediaState — the leave handler does not
clear all room-scoped fields as the claim states. -/
theorem room_leave_retains_role :
    ((handleRoomLeave false wAB 0 none).1.contexts 0).role = some Role.host ∧
    ((handleRoomLeave false wAB 0 none).1.contexts 0).mediaState =
      some { mic := OnOff.on, cam := OnOff.on, screen := OnOff.off } :=
  ⟨rfl, rfl⟩

/-- Claim C6 (amended): an explicit room.leave clears exactly participantId
and meetingId, leaving role, displayName, mediaState and handRaised
untouched; a forced moderation removal does not touch any socket context
at all (in particular none of the target's room-scoped fields). -/
theorem leave_clears_only_ids (w : World) (sockId : Nat) (rq : Option String)
    (m p : String)
    (hp : (w.contexts sockId).participantId = some p) (hp2 : p ≠ "")
    (hm : (w.contexts sockId).meetingId = some m) (hm2 : m ≠ "") :
    (((handleRoomLeave false w sockId rq).1.contexts sockId).participantId
        = none ∧
     ((handleRoomLeave false w sockId rq).1.contexts sockId).meetingId
        = none ∧
     ((handleRoomLeave false w sockId rq).1.contexts sockId).role
        = (w.contexts sockId).role ∧
     ((handleRoomLeave false w sockId rq).1.contexts sockId).displayName
        = (w.contexts sockId).displayName ∧
     ((handleRoomLeave false w sockId rq).1.contexts sockId).mediaState
        = (w.contexts sockId).mediaState ∧
     ((handleRoomLeave false w sockId rq).1.contexts sockId).handRaised
        = (w.contexts sockId).handRaised) ∧
    (∀ rf targetId,
      (handleModerationRemove rf w sockId rq targetId).1.contexts
        = w.contexts) := by
  have h1 : jsTruthy (some p) = true := by simp [jsTruthy, hp2]
  have h2 : jsTruthy (some m) = true := by simp [jsTruthy, hm2]
  constructor
  · refine ⟨?_, ?_, ?_, ?_, ?_, ?_⟩ <;>
      simp [handleRoomLeave, hp, hm, h1, h2, World.setCtx]
  · intro rf targetId
    simp only [handleModerationRemove]
    repeat' split
    all_goals rfl

/-- Witness for C6's amended statement: host A leaves m1; A also removes B. -/
theorem leave_clears_only_ids_witness :
    ((handleRoomLeave false wAB 0 (some "lv")).1.contexts 0).role
        = some Role.host ∧
    ((handleRoomLeave false wAB 0 (some "lv")).1.contexts 0).participantId
        = none ∧
    (handleModerationRemove false wAB 0 (some "lv") "pB").1.contexts
        = wAB.contexts := by
  have h := leave_clears_only_ids wAB 0 (some "lv") "m1" "pA" rfl (by decide)
    rfl (by decide)
  exact ⟨(h.1.2.2.1).trans rfl, h.1.1, h.2 false "pB"⟩

/-- Claim C7: for a meeting whose room holds the association list `entries`
(distinct participant ids, each registered socket's context carrying its
registry key), broadcasting with a nonempty excluded participant id that
is one of the keys sends the one serialized message to exactly the
entries whose key differs from it — that is, to exactly K−1 sockets. -/
theorem broadcast_excludes_exactly_one (w : World) (m e : String)
    (msg : OutMsg) (entries : SockMap)
    (hroom : alookup w.rooms m = some entries)
    (hsync : ∀ q ∈ entries, (w.contexts q.2).participantId = some q.1)
    (hnodup : (entries.map (fun q => q.1)).Nodup)
    (hmem : e ∈ entries.map (fun q => q.1))
    (he : e ≠ "") :
    broadcastToRoom w m msg (some e)
      = (entries.filter (fun q => q.1 != e)).map
          (fun q => Effect.send q.2 msg) ∧
    (broadcastToRoom w m msg (some e)).length + 1 = entries.length := by
  have h1 : broadcastToRoom w m msg (some e)
      = (entries.filter (fun q => q.1 != e)).map
          (fun q => Effect.send q.2 msg) := by
    simp only [broadcastToRoom, getRoomSockets, hroom]
    exact filterMap_exclude w.contexts e he msg entries hsync
  refine ⟨h1, ?_⟩
  rw [h1, List.length_map]
  exact filter_ne_key_length e entries hnodup hmem

/-- Witness for C7: excluding pA in the two-participant room m1 delivers to
exactly the one remaining socket. -/
theorem broadcast_excludes_exactly_one_witness :
    broadcastToRoom wAB "m1" (OutMsg.participantLeft "x") (some "pA")
      = [Effect.send 1 (OutMsg.participantLeft "x")] ∧
    (broadcastToRoom wAB "m1" (OutMsg.participantLeft "x")
      (some "pA")).length + 1 = 2 := by
  have h := broadcast_excludes_exactly_one wAB "m1" "pA"
    (OutMsg.participantLeft "x") [("pA", 0), ("pB", 1)] rfl (by decide)
    (by decide) (by decide) (by decide)
  exact ⟨h.1.trans rfl, h.2⟩

/-- roomsAdd on a meeting that is not yet present appends a fresh room
holding just the new participant. -/
theorem roomsAdd_absent {rooms : RoomsMap} {m : String}
    (hm : alookup rooms m = none) (p : String) (s : Nat) :
    roomsAdd rooms m p s = rooms ++ [(m, [(p, s)])] := by
  simp only [roomsAdd, hm, Option.isSome_none, Bool.false_eq_true, if_false]
  rw [mapSet_absent hm, List.map_append, map_if_none hm]
  simp [mapSet]

/-- Removing the participant just appended to a fresh meeting restores the
original registry: the emptied room is dropped entirely. -/
theorem roomsRemove_appended {rooms : RoomsMap} {m : String}
    (hm : alookup rooms m = none) (p : String) (s : Nat) :
    roomsRemove (rooms ++ [(m, [(p, s)])]) m p = rooms := by
  have hl : alookup (rooms ++ [(m, [(p, s)])]) m = some [(p, s)] := by
    rw [alookup_append_none hm]
    simp [alookup_cons]
  simp only [roomsRemove, hl]
  have hdel : mapDelete [(p, s)] p = [] := by simp [mapDelete]
  rw [hdel]
  simp only [List.length_nil, Nat.zero_eq, beq_self_eq_true, if_true]
  rw [List.map_append, map_if_none hm]
  have hlast : ([(m, [(p, s)])].map
      (fun q => if q.1 == m then (m, ([] : SockMap)) else q)) = [(m, [])] := by
    simp
  rw [hlast]
  unfold mapDelete
  rw [List.filter_append]
  have h1 : rooms.filter (fun q => q.1 != m) = rooms := by
    have := mapDelete_of_none hm
    simpa [mapDelete] using this
  have h2 : (([(m, ([] : SockMap))]).filter (fun q => q.1 != m)) = [] := by
    simp
  rw [h1, h2, List.append_nil]

/-- Adding a fresh participant to an existing room and removing it again
restores the original registry. -/
theorem roundtrip_present {rooms : RoomsMap} {m p : String} {socks : SockMap}
    (hnodup : (rooms.map (fun q => q.1)).Nodup)
    (hm : alookup rooms m = some socks)
    (hp : alookup socks p = none)
    (hne : socks ≠ []) (s : Nat) :
    roomsRemove (roomsAdd rooms m p s) m p = rooms := by
  have hAdd : roomsAdd rooms m p s
      = rooms.map (fun q => if q.1 == m then (m, mapSet q.2 p s) else q) := by
    simp only [roomsAdd, hm, Option.isSome_some, if_true]
  have hlA : alookup (roomsAdd rooms m p s) m = some (mapSet socks p s) := by
    rw [hAdd, alookup_map_replace rooms m (fun v => mapSet v p s), hm]
    rfl
  have hset : mapSet socks p s = socks ++ [(p, s)] := mapSet_absent hp s
  have hdel : mapDelete (mapSet socks p s) p = socks := by
    rw [hset]
    unfold mapDelete
    rw [List.filter_append]
    have h1 : socks.filter (fun q => q.1 != p) = socks := by
      have := mapDelete_of_none hp
      simpa [mapDelete] using this
    have h2 : ([((p, s) : String × Nat)].filter (fun q => q.1 != p)) = [] := by
      simp
    rw [h1, h2, List.append_nil]
  have hlen : (socks.length == 0) = false := by
    have : socks.length ≠ 0 := fun h => hne (List.length_eq_zero.mp h)
    simpa using this
  simp only [roomsRemove, hlA, hdel, hlen, Bool.false_eq_true, if_false]
  rw [hAdd, List.map_map]
  have hcongr : ∀ q : String × SockMap,
      ((fun q => if q.1 == m then (m, socks) else q) ∘
        (fun q => if q.1 == m then (m, mapSet q.2 p s) else q)) q
      = (fun q => if q.1 == m then (m, socks) else q) q := by
    intro q
    by_cases hq : (q.1 == m) = true
    · simp [Function.comp, hq]
    · simp [Function.comp, hq]
  rw [List.map_congr_left (fun q _ => hcongr q)]
  exact map_replace_self hnodup hm

/-- Claim C8: joining a fresh (meetingId, participantId) pair and then
leaving it returns the Room Registry to its pre-join state — when the
meeting did not exist before, its now-empty room is removed entirely and
a subsequent listPeers for it yields the empty sequence. -/
theorem join_leave_roundtrip (rooms : RoomsMap) (m p : String) (s : Nat)
    (hnodup : (rooms.map (fun q => q.1)).Nodup)
    (hfresh : ∀ socks, alookup rooms m = some socks →
      alookup socks p = none ∧ socks ≠ []) :
    roomsRemove (roomsAdd rooms m p s) m p = rooms ∧
    (alookup rooms m = none →
      getRoomSockets (roomsRemove (roomsAdd rooms m p s) m p) m = []) := by
  cases hm : alookup rooms m with
  | none =>
    have h1 : roomsRemove (roomsAdd rooms m p s) m p = rooms := by
      rw [roomsAdd_absent hm p s]
      exact roomsRemove_appended hm p s
    refine ⟨h1, fun _ => ?_⟩
    rw [h1]
    simp [getRoomSockets, hm]
  | some socks =>
    obtain ⟨hp, hne⟩ := hfresh socks hm
    refine ⟨roundtrip_present hnodup hm hp hne s, fun hcon => ?_⟩
    simp at hcon

/-- Witness for C8: a fresh meeting round trip and a round trip into an
existing meeting. -/
theorem join_leave_roundtrip_witness :
    roomsRemove (roomsAdd [("m2", [("pX", 7)])] "m1" "pA" 0) "m1" "pA"
      = [("m2", [("pX", 7)])] ∧
    getRoomSockets
      (roomsRemove (roomsAdd [("m2", [("pX", 7)])] "m1" "pA" 0) "m1" "pA")
      "m1" = [] ∧
    roomsRemove (roomsAdd [("m1", [("pB", 1)])] "m1" "pA" 0) "m1" "pA"
      = [("m1", [("pB", 1)])] := by
  have h1 := join_leave_roundtrip [("m2", [("pX", 7)])] "m1" "pA" 0
    (by decide)
    (fun socks h => by simp [alookup] at h)
  have h2 := join_leave_roundtrip [("m1", [("pB", 1)])] "m1" "pA" 0
    (by decide)
    (fun socks h => by
      simp [alookup] at h
      subst h
      exact ⟨rfl, by decide⟩)
  exact ⟨h1.1, h1.2 rfl, h2.1⟩

/-- Replacing a context with one that keeps the same participantId leaves
every socket's participantId unchanged. -/
theorem setCtx_participantId_eq (w : World) (sid : Nat) (c : WSContext)
    (hc : c.participantId = (w.contexts sid).participantId) (j : Nat) :
    ((w.setCtx sid c).contexts j).participantId
      = (w.contexts j).participantId := by
  unfold World.setCtx
  by_cases hj : j = sid
  · subst hj; simp [hc]
  · simp [hj]

/-- Excluding broadcast, phrased against a room's association list. -/
theorem broadcast_exclude_on (w1 : World) (m p : String) (hp2 : p ≠ "")
    (mc : OutMsg) (entries : SockMap)
    (hroom : alookup w1.rooms m = some entries)
    (hsync : ∀ q ∈ entries, (w1.contexts q.2).participantId = some q.1) :
    broadcastToRoom w1 m mc (some p)
      = (entries.filter (fun q => q.1 != p)).map
          (fun q => Effect.send q.2 mc) := by
  simp only [broadcastToRoom, getRoomSockets, hroom]
  exact filterMap_exclude w1.contexts p hp2 mc entries hsync

/-- Claim C9: a chat.send from an in-room session is broadcast to every
local socket of the meeting — the sender included — while a media.update
from the same session is broadcast to every local socket except the
sender's. -/
theorem chat_includes_sender_media_excludes (w : World) (sockId : Nat)
    (rq : Option String) (text nid ts : String) (patch : MediaPatch)
    (m p : String) (entries : SockMap)
    (hm : (w.contexts sockId).meetingId = some m) (hm2 : m ≠ "")
    (hp : (w.contexts sockId).participantId = some p) (hp2 : p ≠ "")
    (hroom : alookup w.rooms m = some entries)
    (hsync : ∀ q ∈ entries, (w.contexts q.2).participantId = some q.1)
    (hmem : (p, sockId) ∈ entries) :
    (handleChatSend false w sockId rq text nid ts).2
      = entries.map (fun q => Effect.send q.2
          (OutMsg.chatMessage nid p ((w.contexts sockId).displayName) text ts))
        ++ [Effect.publish m
          (OutMsg.chatMessage nid p ((w.contexts sockId).displayName) text ts)] ∧
    Effect.send sockId
        (OutMsg.chatMessage nid p ((w.contexts sockId).displayName) text ts)
      ∈ (handleChatSend false w sockId rq text nid ts).2 ∧
    (handleMediaUpdate false w sockId rq patch).2
      = (entries.filter (fun q => q.1 != p)).map
          (fun q => Effect.send q.2 (OutMsg.mediaChanged p patch))
        ++ [Effect.publish m (OutMsg.mediaChanged p patch)] ∧
    Effect.send sockId (OutMsg.mediaChanged p patch)
      ∉ (handleMediaUpdate false w sockId rq patch).2 := by
  have h1 : jsTruthy (some m) = true := by simp [jsTruthy, hm2]
  have h2 : jsTruthy (some p) = true := by simp [jsTruthy, hp2]
  have hchat : (handleChatSend false w sockId rq text nid ts).2
      = entries.map (fun q => Effect.send q.2
          (OutMsg.chatMessage nid p ((w.contexts sockId).displayName) text ts))
        ++ [Effect.publish m
          (OutMsg.chatMessage nid p
            ((w.contexts sockId).displayName) text ts)] := by
    simp [handleChatSend, hm, hp, h1, h2, broadcastToRoom_no_exclude,
      getRoomSockets, hroom, List.map_map, Function.comp]
  have hmedia : (handleMediaUpdate false w sockId rq patch).2
      = (entries.filter (fun q => q.1 != p)).map
          (fun q => Effect.send q.2 (OutMsg.mediaChanged p patch))
        ++ [Effect.publish m (OutMsg.mediaChanged p patch)] := by
    cases hms : (w.contexts sockId).mediaState with
    | none =>
      have hbc := broadcast_exclude_on w m p hp2 (OutMsg.mediaChanged p patch)
        entries hroom hsync
      simp [handleMediaUpdate, hm, hp, h1, h2, hms, hbc]
    | some ms =>
      have hsync1 : ∀ q ∈ entries,
          ((w.setCtx sockId
            { w.contexts sockId with
              mediaState := some (applyPatch ms patch) }).contexts
            q.2).participantId = some q.1 := by
        intro q hq
        rw [setCtx_participantId_eq w sockId
          { w.contexts sockId with mediaState := some (applyPatch ms patch) }
          rfl q.2]
        exact hsync q hq
      have hbc := broadcast_exclude_on
        (w.setCtx sockId
          { w.contexts sockId with mediaState := some (applyPatch ms patch) })
        m p hp2 (OutMsg.mediaChanged p patch) entries hroom hsync1
      simp only [hp, hm] at hbc
      simp [handleMediaUpdate, hm, hp, h1, h2, hms, hbc]
  refine ⟨hchat, ?_, hmedia, ?_⟩
  · rw [hchat]
    exact List.mem_append_left _
      (List.mem_map_of_mem
        (fun q => Effect.send q.2
          (OutMsg.chatMessage nid p ((w.contexts sockId).displayName) text ts))
        hmem)
  · rw [hmedia]
    intro hmem2
    rcases List.mem_append.mp hmem2 with h | h
    · rcases List.mem_map.mp h with ⟨q, hqf, hqe⟩
      have hq2 : q.2 = sockId := by
        injection hqe with hq2 _
      have hqfilter := List.mem_filter.mp hqf
      have hsq := hsync q hqfilter.1
      rw [hq2, hp] at hsq
      injection hsq with hq1
      have := hqfilter.2
      rw [← hq1] at this
      simp at this
    · simp at h

/-- Witness for C9: in the two-participant room, A's chat reaches sockets 0
and 1 while A's media.update reaches only socket 1. -/
theorem chat_includes_sender_media_excludes_witness :
    (handleChatSend false wAB 0 (some "c1") "hi" "id1" "t1").2
      = [Effect.send 0 (OutMsg.chatMessage "id1" "pA" (some "A") "hi" "t1"),
         Effect.send 1 (OutMsg.chatMessage "id1" "pA" (some "A") "hi" "t1"),
         Effect.publish "m1"
           (OutMsg.chatMessage "id1" "pA" (some "A") "hi" "t1")] ∧
    (handleMediaUpdate false wAB 0 (some "c1")
        (MediaPatch.mk (some OnOff.off) none none)).2
      = [Effect.send 1 (OutMsg.mediaChanged "pA"
           (MediaPatch.mk (some OnOff.off) none none)),
         Effect.publish "m1" (OutMsg.mediaChanged "pA"
           (MediaPatch.mk (some OnOff.off) none none))] := by
  have h := chat_includes_sender_media_excludes wAB 0 (some "c1") "hi" "id1"
    "t1" (MediaPatch.mk (some OnOff.off) none none) "m1" "pA"
    [("pA", 0), ("pB", 1)] rfl (by decide) rfl (by decide) rfl (by decide)
    (by decide)
  exact ⟨h.1.trans rfl, (h.2.2.1).trans rfl⟩

/-- Claim C10: for a lobby.admit or lobby.reject from an in-room host, a
lobby.result message is sent (directly to the target, admitted true/false
respectively) precisely when the target participant id is registered in
the host's meeting room; when the target is absent nothing at all is sent
— no message to the target and no error to the host — and the world is
unchanged. -/
theorem lobby_result_iff_registered (w : World) (sockId : Nat)
    (rq : Option String) (targetId m : String)
    (hm : (w.contexts sockId).meetingId = some m) (hm2 : m ≠ "")
    (hr : (w.contexts sockId).role = some Role.host) :
    (∀ t, getSocket w.rooms m targetId = some t →
      handleLobbyAdmit w sockId rq targetId =
        (w, [Effect.send t (OutMsg.lobbyResult true)]) ∧
      handleLobbyReject w sockId rq targetId =
        (w, [Effect.send t (OutMsg.lobbyResult false)])) ∧
    (getSocket w.rooms m targetId = none →
      handleLobbyAdmit w sockId rq targetId = (w, []) ∧
      handleLobbyReject w sockId rq targetId = (w, [])) := by
  have h1 : jsTruthy (some m) = true := by simp [jsTruthy, hm2]
  constructor
  · intro t ht
    constructor <;>
      simp [handleLobbyAdmit, handleLobbyReject, hm, h1, hr, ht]
  · intro ht
    constructor <;>
      simp [handleLobbyAdmit, handleLobbyReject, hm, h1, hr, ht]

/-- Witness for C10: host A admits registered pB (lobby.result reaches
socket 1) and admits an unknown id (nothing is sent). -/
theorem lobby_result_iff_registered_witness :
    handleLobbyAdmit wAB 0 (some "a1") "pB" =
      (wAB, [Effect.send 1 (OutMsg.lobbyResult true)]) ∧
    handleLobbyReject wAB 0 (some "a1") "pB" =
      (wAB, [Effect.send 1 (OutMsg.lobbyResult false)]) ∧
    handleLobbyAdmit wAB 0 (some "a1") "zz" = (wAB, []) := by
  have h := lobby_result_iff_registered wAB 0 (some "a1") "pB" "m1" rfl
    (by decide) rfl
  have h2 := lobby_result_iff_registered wAB 0 (some "a1") "zz" "m1" rfl
    (by decide) rfl
  exact ⟨(h.1 1 rfl).1, (h.1 1 rfl).2, (h2.2 rfl).1⟩

end HubServer
